import Mathlib

set_option maxRecDepth 40000

/-!
Verification of the ChatBridge CQHttp bridge
(`src/chatbridge/impl/cqhttp/entry.py`) against its natural-language
specification.

The development is a shallow embedding: strings are `List Char`, every
Python string primitive used by the source is modelled by an executable
Lean function, event handlers become functions from typed events to lists
of observable effects (messages sent to the chat room, commands and chat
forwarded to the remote side), and Python exceptions become
`Except PyErr`.
-/

/-- Python strings are modelled as lists of characters. -/
abbrev Str := List Char

/-- Characters treated as whitespace by Python `str.strip` / `str.split()`
(ASCII fragment; the Unicode whitespace of Python is outside the model,
all inputs considered here are covered). -/
def pyIsSpace (c : Char) : Bool :=
  c = ' ' || c = '\t' || c = '\n' || c = '\r' || c = '\x0B' || c = '\x0C'

/-- Model of Python `str.lstrip()`. -/
def pyLstrip (s : Str) : Str := s.dropWhile pyIsSpace

/-- Model of Python `str.rstrip()`. -/
def pyRstrip (s : Str) : Str := (s.reverse.dropWhile pyIsSpace).reverse

/-- Model of Python `str.strip()`. -/
def pyStrip (s : Str) : Str := pyRstrip (pyLstrip s)

/-- Model of Python `str.split(sep)` for a one-character separator, as in
`raw_message.split(' ')`: consecutive separators produce empty fields and
the result is never empty. -/
def pySplitChar (sep : Char) : Str → List Str
  | [] => [[]]
  | c :: r =>
    if c = sep then [] :: pySplitChar sep r
    else
      match pySplitChar sep r with
      | [] => [[c]]
      | t :: ts => (c :: t) :: ts

/-- Model of Python `str.split(sep, 1)` for a one-character separator, as in
`raw_message.split(' ', 1)`: at most one split is performed. -/
def pySplitChar1 (sep : Char) (s : Str) : List Str :=
  let pre := s.takeWhile (fun c => !(c = sep))
  match s.dropWhile (fun c => !(c = sep)) with
  | [] => [pre]
  | _ :: r => [pre, r]

/-- Model of Python `str.split(maxsplit=n)` (whitespace splitting with a
bounded number of splits), as in `split(maxsplit=2)`: leading whitespace
is skipped, each full token is the maximal whitespace-free run, and once
the split budget is exhausted the remainder (after skipping the
whitespace run that follows the last full token) is returned verbatim. -/
def pySplitWsMax (n : Nat) (s : Str) : List Str :=
  match n, s.dropWhile pyIsSpace with
  | _, [] => []
  | 0, s1 => [s1]
  | Nat.succ m, s1 =>
    s1.takeWhile (fun c => !(pyIsSpace c)) ::
      pySplitWsMax m (s1.dropWhile (fun c => !(pyIsSpace c)))

/-- Model of Python `sep.join(parts)` for a one-character separator. -/
def joinSep (sep : Char) : List Str → Str
  | [] => []
  | [x] => x
  | x :: xs => x ++ sep :: joinSep sep xs

/-- Model of Python `s.find(pat) != -1`: does `pat` occur as a contiguous
substring of `s`? -/
def hasInfix (s pat : Str) : Bool :=
  match s with
  | [] => pat.isPrefixOf ([] : Str)
  | _ :: r => pat.isPrefixOf s || hasInfix r pat

/-- Model of Python `str.lower()` (ASCII fragment, which covers the
classifier tokens compared by the source; CJK characters are unchanged
by both). -/
def pyLower (s : Str) : Str := s.map Char.toLower

/-- Model of Python `str.splitlines(keepends=True)`, restricted to the
line breaks `\n`, `\r\n` and `\r` (the exotic break characters of the
full Python rule do not occur in any input considered here). -/
def splitlines : Str → List Str
  | [] => []
  | c :: r =>
    if c = '\r' then
      match r with
      | '\n' :: r2 => (['\r', '\n'] : Str) :: splitlines r2
      | [] => [['\r']]
      | c2 :: r2 => (['\r'] : Str) :: splitlines (c2 :: r2)
    else if c = '\n' then (['\n'] : Str) :: splitlines r
    else
      match splitlines r with
      | [] => [[c]]
      | l :: ls => (c :: l) :: ls

/-- Model of Python `str(i)` for an integer. -/
def intToStr (i : Int) : Str :=
  match i with
  | Int.ofNat n => Nat.toDigits 10 n
  | Int.negSucc n => '-' :: Nat.toDigits 10 (n + 1)

/-! ## Data model -/

/-- Python exceptions that can escape an expression of the modelled code. -/
inductive PyErr where
  | keyError
  | indexError
  | attributeError
deriving DecidableEq, Repr

/-- Parameters dictionary attached to a forwarded command
(`params={"IsQQ": True, "Type": "Vanilla"}`).  `IsQQ` records the
truthiness of `params.get("IsQQ")`; `type` is the value under the key
"Type" when present. -/
structure CmdParams where
  IsQQ : Bool
  type : Option Str
deriving DecidableEq, Repr

/-- Parameters of a `send_command` call made without an explicit `params`
argument (the default empty dictionary: no `IsQQ` key, no `Type` key). -/
def noParams : CmdParams := { IsQQ := false, type := none }

/-- Observable outbound effects of the routers.  `sendText` is a
`CQBot.send_text` reply into the chat room, `sendCommand` is
`chatClient.send_command(client, command, params)`, `sendChat` is
`chatClient.send_chat(text, sender)`, `sendMessage` is
`cq_bot.send_message(sender, text)`, and `logException` is the
logger call of an `except` handler. -/
inductive Effect where
  | sendText (text : Str)
  | sendCommand (client : Str) (command : Str) (params : CmdParams)
  | sendChat (text : Str) (sender : Str)
  | sendMessage (sender : Str) (text : Str)
  | logException
deriving DecidableEq, Repr

/-- State of the external collaborators at the instant an event is
handled: whether the global `chatClient` / `cq_bot` singletons have been
constructed, the cached remote-link connectivity flag
(`chatClient.is_online()`), and the outcome the token buckets would
report for a consume attempt now. -/
structure Env where
  chatClientPresent : Bool
  cqBotPresent : Bool
  online : Bool
  qqConsumeOk : Bool
  mcConsumeOk : Bool
deriving DecidableEq, Repr

/-- Configuration fields of `CqHttpConfig` read by the routed code. -/
structure CqHttpConfig where
  react_group_id : Int
  qq_whitelist : Bool
  qq_list : List Int
  admin : List Int
  allow_easyauth_offline_reg_for_everyone : Bool
  allow_whitelist_for_everyone : Bool
  client_to_query_online : Str
  client_to_query_stats : Str
  qq_to_mc_auto : Bool
  qq_limiter : Bool
  qq_max_length : Nat
  mc_whitelist : Bool
  mc_list : List Str
  mc_to_qq_auto : Bool
  forward_join_message : Bool
  mc_limiter : Bool
  mc_max_length : Nat
deriving DecidableEq, Repr

/-- Sender block of a CQHTTP group message (`data['sender']`). -/
structure QQSender where
  card : Str
  nickname : Str
deriving DecidableEq, Repr

/-- Fields of the decoded CQHTTP event dictionary that `on_message`
reads.  Fields accessed with `data[k]` (which raises `KeyError` when
absent) are `Option`s whose `none` models a missing key; `post_type` and
`message_type` are read with `data.get(k)` and so are `Option`s whose
`none` models the `None` default.  `anonymous_is_none` records the truth
of `data['anonymous'] is None`. -/
structure EventData where
  post_type : Option Str
  message_type : Option Str
  anonymous_is_none : Option Bool
  group_id : Option Int
  user_id : Option Int
  raw_message : Option Str
  sender : Option QQSender
deriving DecidableEq, Repr

/-- Shorthand for a fully populated, non-anonymous group message event,
as the chat-room transport delivers for every ordinary group text
message. -/
def groupEvent (gid uid : Int) (raw : Str) (card nickname : Str) : EventData :=
  { post_type := some ("message".data)
  , message_type := some ("group".data)
  , anonymous_is_none := some true
  , group_id := some gid
  , user_id := some uid
  , raw_message := some raw
  , sender := some { card := card, nickname := nickname } }

/-- Chat payload delivered by the RemoteLink (`ChatPayload`). -/
structure ChatPayload where
  author : Str
  message : Str
deriving DecidableEq, Repr

/-- Modelled from the spec: `ChatPayload.formatted_str` lives in
`chatbridge/core/network/protocol.py`, which is not among the provided
sources; the spec describes it as formatting the message with sender
attribution. -/
def formatted_str (p : ChatPayload) : Str :=
  "[".data ++ p.author ++ "] ".data ++ p.message

/-- Wire form of a remote command result, as read by the three
deserializers used in `on_command`. -/
structure ResultData where
  success : Bool
  stats_name : Str
  data : List Str
  total : Int
  error_code : Int
deriving DecidableEq, Repr

/-- Typed stats query result (`StatsQueryResult`). -/
structure StatsQueryResult where
  success : Bool
  stats_name : Str
  data : List Str
  total : Int
  error_code : Int
deriving DecidableEq, Repr

/-- Modelled from the spec: `StatsQueryResult.deserialize` lives in
`chatbridge/impl/tis/protocol.py`, which is not among the provided
sources; it reconstructs the typed result from the wire dictionary and
is modelled as a field-for-field projection. -/
def StatsQueryResult.deserialize (r : ResultData) : StatsQueryResult :=
  { success := r.success, stats_name := r.stats_name, data := r.data
  , total := r.total, error_code := r.error_code }

/-- Typed online query result (`OnlineQueryResult`). -/
structure OnlineQueryResult where
  data : List Str
deriving DecidableEq, Repr

/-- Modelled from the spec: `OnlineQueryResult.deserialize` lives in
`chatbridge/impl/tis/protocol.py`, not among the provided sources;
modelled as a projection of the wire record. -/
def OnlineQueryResult.deserialize (r : ResultData) : OnlineQueryResult :=
  { data := r.data }

/-- Typed generic command result (`RemoteCommandResult`). -/
structure RemoteCommandResult where
  success : Bool
deriving DecidableEq, Repr

/-- Modelled from the spec: `RemoteCommandResult.deserialize` lives in
`chatbridge/impl/mcdr/protocol.py`, not among the provided sources;
modelled as a projection of the wire record. -/
def RemoteCommandResult.deserialize (r : ResultData) : RemoteCommandResult :=
  { success := r.success }

/-- Command payload delivered to `on_command` (`CommandPayload`). -/
structure CommandPayload where
  responded : Bool
  command : Str
  params : CmdParams
  result : ResultData
deriving DecidableEq, Repr

/-! ## Fixed texts -/

/-- Help text `CQHelpMessage`. -/
def CQHelpMessage : Str :=
  ("!!help: 显示本条帮助信息\n!!ping: pong!!\n!!mc <消息>: 向 MC 中发送聊天信息 <消息>\n!!online: 显示在线列表\n!!stats <类别> <内容> [<-bot>]: 查询统计信息 <类别>.<内容> 的排名").data

/-- Help text `StatsHelpMessage`. -/
def StatsHelpMessage : Str :=
  ("!!stats <类别> <内容> [<-bot>]\n添加 `-bot` 来列出 bot\n例子:\n!!stats used diamond_pickaxe\n!!stats custom time_since_rest -bot").data

/-- Local reply sent when the remote link is offline. -/
def offlineNotice : Str := "ChatBridge 客户端离线".data

/-- Local rejection reply of the privileged-command gate. -/
def malformedNotice : Str := "命令执行失败：格式错误或权限不足".data

/-- Local rejection reply for an invalid username. -/
def badNameNotice : Str := "非法的用户名！".data

/-! ## Helper routines of the chat-room router -/

/-- Modelled from the spec: `utils.is_valid_minecraft_username` lives in
`chatbridge/impl/utils.py`, which is not among the provided sources; the
spec describes it as a username-syntax rule — non-empty, bounded length,
letters/digits/underscore.  The bound 16 is the platform's legal player
identifier length. -/
def is_valid_minecraft_username (name : Str) : Bool :=
  decide (0 < name.length) && decide (name.length ≤ 16) &&
    name.all (fun c => c.isAlphanum || c = '_')

/-- Word characters of the regex `\w` (ASCII fragment). -/
def isWordChar (c : Char) : Bool := c.isAlphanum || c = '_'

/-- Placeholder substituted for rich-content markers. -/
def cqPlaceholder : Str := "[不支持的消息格式]".data

/-- Attempt to match one CQ rich-content marker directly after an opening
bracket: `CQ:` followed by at least one word character, then anything up
to the first `]`.  Returns the remainder after the marker.  (The
per-parameter `(,\w+=.*?)*` structure of the source regex is not further
modelled; no claim depends on this routine.) -/
def matchCQ (r : Str) : Option Str :=
  if ("CQ:".data).isPrefixOf r then
    let after := r.drop 3
    let ty := after.takeWhile isWordChar
    if ty = ([] : Str) then none
    else
      let rest1 := after.dropWhile isWordChar
      match rest1.findIdx? (fun c => c = ']') with
      | some i => some (rest1.drop (i + 1))
      | none => none
  else none

/-- Fuel-driven scan for `re.sub(r"\[CQ:(\w+)(,(\w+)=(.*?))*]",
"[不支持的消息格式]", text)`: each marker is replaced by the placeholder.
The fuel (one unit per emitted character) makes the recursion structural;
`cqSanitize` supplies enough fuel for the whole input. -/
def cqSanitizeFuel : Nat → Str → Str
  | 0, s => s
  | Nat.succ n, s =>
    match s with
    | [] => []
    | c :: r =>
      if c = '[' then
        match matchCQ r with
        | some rest => cqPlaceholder ++ cqSanitizeFuel n rest
        | none => c :: cqSanitizeFuel n r
      else c :: cqSanitizeFuel n r

/-- Replacement of CQ rich-content markers in outgoing chat text. -/
def cqSanitize (s : Str) : Str := cqSanitizeFuel s.length s

/-- Model of `html.unescape` restricted to the five predefined XML
entities (the full named-character-reference table of Python is outside
the model; no claim depends on this routine). -/
def htmlUnescape : Str → Str
  | [] => []
  | '&' :: 'a' :: 'm' :: 'p' :: ';' :: r => '&' :: htmlUnescape r
  | '&' :: 'l' :: 't' :: ';' :: r => '<' :: htmlUnescape r
  | '&' :: 'g' :: 't' :: ';' :: r => '>' :: htmlUnescape r
  | '&' :: 'q' :: 'u' :: 'o' :: 't' :: ';' :: r => '"' :: htmlUnescape r
  | '&' :: '#' :: '3' :: '9' :: ';' :: r => '\x27' :: htmlUnescape r
  | c :: r => c :: htmlUnescape r

/-- Truthiness of the expression `chatClient.is_online` at the stats
forwarding site (source line 153): the attribute is referenced without
being called, so the test sees the bound-method object, which is a
non-None object and therefore always truthy — whatever the actual link
state is.  Every other call site evaluates `chatClient.is_online()`. -/
def is_online_method_truthy (_env : Env) : Bool := true

/-! ## The privileged-command gate (source lines 73-123) -/

/-- Privileged-command gate of `CQBot.on_message`: the block guarding
messages whose stripped text starts with `#`.  Returns `some effects`
when the Python block executes a `return` statement (the listed effects
having been performed), and `none` when control falls through the block
into the later classification steps.  The branch structure mirrors the
source exactly: the `elif` alias branches chain off
`if int(data['user_id']) in self.config.admin`, so when the sender is an
admin and the classifier token is neither `/` nor `!`, no branch of the
chain runs and control falls through (`none`). -/
def privilegedGate (cfg : CqHttpConfig) (online : Bool) (uid : Int) (raw : Str) :
    Option (List Effect) :=
  if ("#".data).isPrefixOf (pyStrip raw) then
    match pySplitWsMax 2 (pyStrip (raw.drop 1)) with
    | c0 :: c1 :: c2 :: _ =>
      if uid ∈ cfg.admin then
        if c0 = "/".data then
          some (if online
            then [Effect.sendCommand c1 c2 { IsQQ := true, type := some ("Vanilla".data) }]
            else [Effect.sendText offlineNotice])
        else if c0 = "!".data then
          some (if online
            then [Effect.sendCommand c1 c2 { IsQQ := true, type := some ("MCDR".data) }]
            else [Effect.sendText offlineNotice])
        else none
      else if pyLower c0 ∈ ["离线".data, "offline".data] &&
          (decide (uid ∈ cfg.admin) || cfg.allow_easyauth_offline_reg_for_everyone) then
        let u_name := pyStrip c2
        if !(is_valid_minecraft_username u_name) then
          some [Effect.sendText badNameNotice]
        else if online then
          some [Effect.sendCommand c1 ("auth addToForcedOffline ".data ++ u_name)
            { IsQQ := true, type := some ("Vanilla".data) }]
        else some [Effect.sendText offlineNotice]
      else if pyLower c0 ∈ ["白名单".data, "whitelist".data] &&
          (decide (uid ∈ cfg.admin) || cfg.allow_whitelist_for_everyone) then
        let u_name := pyStrip c2
        if !(is_valid_minecraft_username u_name) then
          some [Effect.sendText badNameNotice]
        else if online then
          some [Effect.sendCommand c1 ("whitelist add ".data ++ u_name)
            { IsQQ := true, type := some ("Vanilla".data) }]
        else some [Effect.sendText offlineNotice]
      else some [Effect.sendText malformedNotice]
    | _ => none
  else none

/-! ## The chat-room router (`CQBot.on_message`, source lines 56-194) -/

/-- Continuation of `on_message` after the privileged-command gate
(source lines 125-191): the fixed single-token commands, the stats
command, the kill-bot command and the free-text relay.  The nested
`if len(args) == 1:` block of the source is flattened into three guarded
branches, which is equivalent because its inner branches all return. -/
def on_message_rest (env : Env) (cfg : CqHttpConfig) (uid : Int) (raw : Str)
    (args : List Str) (sender : Option QQSender) : Except PyErr (List Effect) :=
  if args.length = 1 && args.headD [] = "!!help".data then
    Except.ok [Effect.sendText CQHelpMessage]
  else if args.length = 1 && args.headD [] = "!!ping".data then
    Except.ok [Effect.sendText ("pong!!".data)]
  else if args.length = 1 && args.headD [] = "!!online".data then
    (if env.online then
      Except.ok [Effect.sendCommand cfg.client_to_query_online ("!!online".data) noParams]
    else Except.ok [Effect.sendText offlineNotice])
  else if decide (1 ≤ args.length) && args.headD [] = "!!stats".data then
    let command := "!!stats rank ".data ++ joinSep ' ' args.tail
    if args.length = 0 || !(args.length - (if hasInfix command ("-bot".data) then 1 else 0) = 3) then
      Except.ok [Effect.sendText StatsHelpMessage]
    else if is_online_method_truthy env then
      Except.ok [Effect.sendCommand cfg.client_to_query_stats command noParams]
    else Except.ok [Effect.sendText offlineNotice]
  else if args.length = 3 && args.headD [] = "!!killbot".data then
    (if env.online then
      Except.ok [Effect.sendCommand (args.getD 1 [])
        ("player ".data ++ args.getD 2 [] ++ " kill".data)
        { IsQQ := true, type := some ("Vanilla".data) }]
    else Except.ok [Effect.sendText offlineNotice])
  else if cfg.qq_to_mc_auto || (decide (2 ≤ args.length) && args.headD [] = "!!mc".data) then
    if decide (uid ∉ cfg.admin) && cfg.qq_limiter && !env.qqConsumeOk then
      Except.ok []
    else
      match sender with
      | none => Except.error PyErr.keyError
      | some snd =>
        let sname := if snd.card.length = 0 then snd.nickname else snd.card
        let textRes : Except PyErr Str :=
          if cfg.qq_to_mc_auto then Except.ok (htmlUnescape raw)
          else
            match (pySplitChar1 ' ' raw).getD 1 [] , (pySplitChar1 ' ' raw).length with
            | t, 2 => Except.ok (htmlUnescape t)
            | _, _ => Except.error PyErr.indexError
        match textRes with
        | Except.error e => Except.error e
        | Except.ok t0 =>
          let text := cqSanitize t0
          if decide (0 < cfg.qq_max_length) && decide (cfg.qq_max_length < text.length) then
            Except.ok []
          else Except.ok [Effect.sendChat text sname]
  else Except.ok []

/-- Body of `CQBot.on_message` (everything inside its `try`).  Field
reads of the forms `data[k]` are matches on the `Option` field whose
`none` raises `KeyError`; the short-circuit order of the source's
conditions is preserved. -/
def on_message_body (env : Env) (cfg : CqHttpConfig) (data : EventData) :
    Except PyErr (List Effect) :=
  if !env.chatClientPresent then Except.ok []
  else if !(data.post_type = some ("message".data) && data.message_type = some ("group".data)) then
    Except.ok []
  else
    match data.anonymous_is_none with
    | none => Except.error PyErr.keyError
    | some isNone =>
      if !isNone then Except.ok []
      else
        match data.group_id with
        | none => Except.error PyErr.keyError
        | some gid =>
          if !(gid = cfg.react_group_id) then Except.ok []
          else
            match data.raw_message with
            | none => Except.error PyErr.keyError
            | some raw =>
              let args := pySplitChar ' ' raw
              match data.user_id with
              | none => Except.error PyErr.keyError
              | some uid =>
                if cfg.qq_whitelist && decide (uid ∉ cfg.qq_list) then Except.ok []
                else if !cfg.qq_whitelist && decide (uid ∈ cfg.qq_list) then Except.ok []
                else
                  match privilegedGate cfg env.online uid raw with
                  | some effs => Except.ok effs
                  | none => on_message_rest env cfg uid raw args data.sender

/-- The `on_message` handler as the transport sees it: the body runs
under `try: ... except: logger.exception(...)`, so every exception is
caught, logged and the event dropped. -/
def on_message (env : Env) (cfg : CqHttpConfig) (data : EventData) :
    Except PyErr (List Effect) :=
  match on_message_body env cfg data with
  | Except.ok effs => Except.ok effs
  | Except.error _ => Except.ok [Effect.logException]

/-! ## Outgoing text chunking (`CQBot.send_text`, source lines 209-219) -/

/-- Loop of `send_text`: whole lines are accumulated into `msg` and the
segment is flushed when the current line is the last one or appending
the next line would exceed 500 characters.  Returns the list of
`_send_text` payloads in order. -/
def send_text_loop : List Str → Str → List Str
  | [], _ => []
  | [l], msg => [msg ++ l]
  | l1 :: l2 :: rest, msg =>
    let m := msg ++ l1
    if 500 < m.length + l2.length then m :: send_text_loop (l2 :: rest) []
    else send_text_loop (l2 :: rest) m

/-- Chunking routine of `CQBot.send_text`: the text is right-stripped,
split into lines with their line breaks kept, and flushed in
line-aligned segments. -/
def send_text (text : Str) : List Str :=
  send_text_loop (splitlines (pyRstrip text)) []

/-! ## The remote router (`CqHttpChatBridgeClient`, source lines 234-300) -/

/-- Test of `re.match(r'.+ (joined|left) .+', s)` at one position:
does the literal pattern followed by at least one non-newline character
start here? -/
def patHere (pat s : Str) : Bool :=
  pat.isPrefixOf s &&
    (match s.drop pat.length with
     | [] => false
     | c :: _ => !(c = '\n'))

/-- Matchability of `re.match(r'.+ (joined|left) .+', s)`: at least one
leading non-newline character, then `" joined "` or `" left "`, then at
least one non-newline character. -/
def joinedLeftMatch : Str → Bool
  | [] => false
  | c :: r =>
    if c = '\n' then false
    else patHere (" joined ".data) r || patHere (" left ".data) r || joinedLeftMatch r

/-- Body of `CqHttpChatBridgeClient.on_chat` (everything inside its
`try`).  The inner `try: prefix, message = payload.message.split(' ', 1)
except: pass` is modelled by the match on `pySplitChar1`: a
single-element split raises `ValueError` at the unpacking, which the
inner handler swallows, skipping the `else` clause. -/
def on_chat_body (env : Env) (cfg : CqHttpConfig) (sender : Str) (payload : ChatPayload) :
    Except PyErr (List Effect) :=
  if cfg.mc_whitelist && decide (payload.author ∉ cfg.mc_list) then Except.ok []
  else if !cfg.mc_whitelist && decide (payload.author ∈ cfg.mc_list) then Except.ok []
  else if cfg.mc_to_qq_auto && !(("!!".data).isPrefixOf (pyStrip payload.message)) then
    if !cfg.forward_join_message && joinedLeftMatch (pyStrip payload.message) then Except.ok []
    else if cfg.mc_limiter && !env.mcConsumeOk then Except.ok []
    else
      let text := formatted_str payload
      if decide (0 < cfg.mc_max_length) && decide (cfg.mc_max_length < text.length) then
        Except.ok []
      else Except.ok [Effect.sendMessage sender text]
  else
    match pySplitChar1 ' ' payload.message with
    | [prf, message] =>
      if prf = "!!qq".data then
        if cfg.mc_limiter && !env.mcConsumeOk then Except.ok []
        else
          let text := formatted_str { author := payload.author, message := message }
          if decide (0 < cfg.mc_max_length) && decide (cfg.mc_max_length < text.length) then
            Except.ok []
          else Except.ok [Effect.sendMessage sender text]
      else Except.ok []
    | _ => Except.ok []

/-- The `on_chat` handler as the RemoteLink sees it: a `None` check on
the `cq_bot` singleton precedes a `try: ... except: logger.exception`
around the whole body. -/
def on_chat (env : Env) (cfg : CqHttpConfig) (sender : Str) (payload : ChatPayload) :
    Except PyErr (List Effect) :=
  if !env.cqBotPresent then Except.ok []
  else
    match on_chat_body env cfg sender payload with
    | Except.ok effs => Except.ok effs
    | Except.error _ => Except.ok [Effect.logException]

/-- Access to `cq_bot.send_text` inside `on_command`: unlike the other
handlers, `on_command` neither checks the singleton for `None` nor runs
under a `try`, so when `cq_bot` has not been constructed yet the
attribute access raises `AttributeError`. -/
def cqBotSendText (cqBotPresent : Bool) (text : Str) : Except PyErr (List Effect) :=
  if cqBotPresent then Except.ok [Effect.sendText text]
  else Except.error PyErr.attributeError

/-- The `on_command` handler (`CqHttpChatBridgeClient.on_command`,
source lines 281-300).  There is no exception boundary in this
handler. -/
def on_command (cqBotPresent : Bool) (payload : CommandPayload) :
    Except PyErr (List Effect) :=
  if !payload.responded then Except.ok []
  else if ("!!stats ".data).isPrefixOf payload.command then
    let result := StatsQueryResult.deserialize payload.result
    if result.success then
      let messages :=
        ("====== ".data ++ result.stats_name ++ " ======".data) ::
          (result.data ++ ["总数：".data ++ intToStr result.total])
      cqBotSendText cqBotPresent (joinSep '\n' messages)
    else if result.error_code = 1 then
      cqBotSendText cqBotPresent ("统计信息未找到".data)
    else if result.error_code = 2 then
      cqBotSendText cqBotPresent ("StatsHelper 插件未加载".data)
    else Except.ok []
  else if payload.command = "!!online".data then
    let result := OnlineQueryResult.deserialize payload.result
    cqBotSendText cqBotPresent
      ("====== 玩家列表 ======\n".data ++ joinSep '\n' result.data)
  else if payload.params.IsQQ then
    let result := RemoteCommandResult.deserialize payload.result
    cqBotSendText cqBotPresent
      (if result.success then "命令已执行".data
       else "Minecraft服务器未在运行，请稍后再试".data)
  else Except.ok []

/-! ## Decidability of result comparison -/

/-- Decidable equality of handler results, used to evaluate the model on
concrete events. -/
instance exceptDecEq {ε α : Type} [DecidableEq ε] [DecidableEq α] :
    DecidableEq (Except ε α) := fun x y =>
  match x, y with
  | Except.ok a, Except.ok b =>
    if h : a = b then isTrue (by rw [h]) else isFalse (by intro hh; cases hh; exact h rfl)
  | Except.error a, Except.error b =>
    if h : a = b then isTrue (by rw [h]) else isFalse (by intro hh; cases hh; exact h rfl)
  | Except.ok _, Except.error _ => isFalse (by intro hh; cases hh)
  | Except.error _, Except.ok _ => isFalse (by intro hh; cases hh)

/-! ## Concrete fixtures used by the witnesses and counterexamples -/

/-- Sample configuration: blacklist mode with an empty block list (every
sender passes the access gate), one admin (user 123), both privileged
overrides disabled, auto-forward off, rate limiting off. -/
def sampleCfg : CqHttpConfig :=
  { react_group_id := 1000, qq_whitelist := false, qq_list := [], admin := [123]
  , allow_easyauth_offline_reg_for_everyone := false
  , allow_whitelist_for_everyone := false
  , client_to_query_online := "MyServer".data
  , client_to_query_stats := "MyServer".data
  , qq_to_mc_auto := false, qq_limiter := false, qq_max_length := 500
  , mc_whitelist := false, mc_list := [], mc_to_qq_auto := true
  , forward_join_message := true, mc_limiter := false, mc_max_length := 500 }

/-- Sample configuration with no admins at all. -/
def cfgNoAdmin : CqHttpConfig :=
  { react_group_id := 1000, qq_whitelist := false, qq_list := [], admin := []
  , allow_easyauth_offline_reg_for_everyone := false
  , allow_whitelist_for_everyone := false
  , client_to_query_online := "MyServer".data
  , client_to_query_stats := "MyServer".data
  , qq_to_mc_auto := false, qq_limiter := false, qq_max_length := 500
  , mc_whitelist := false, mc_list := [], mc_to_qq_auto := true
  , forward_join_message := true, mc_limiter := false, mc_max_length := 500 }

/-- Environment with both singletons constructed and the remote link
online. -/
def envOnline : Env :=
  { chatClientPresent := true, cqBotPresent := true, online := true
  , qqConsumeOk := true, mcConsumeOk := true }

/-- Environment with both singletons constructed and the remote link
offline. -/
def envOffline : Env :=
  { chatClientPresent := true, cqBotPresent := true, online := false
  , qqConsumeOk := true, mcConsumeOk := true }

/-- A responded stats result that does not carry the chatroom-origin
marker (`IsQQ` absent from the params). -/
def statsResultNoMarker : CommandPayload :=
  { responded := true, command := "!!stats rank used diamond_pickaxe".data
  , params := noParams
  , result := { success := true, stats_name := "used diamond_pickaxe".data
              , data := ["1. Steve 10".data], total := 10, error_code := 0 } }

/-- A responded online-query result. -/
def onlineResultPayload : CommandPayload :=
  { responded := true, command := "!!online".data, params := noParams
  , result := { success := true, stats_name := [], data := ["Steve".data]
              , total := 0, error_code := 0 } }

/-- A responded stats result payload that failed with error code 1. -/
def statsErr1Payload : CommandPayload :=
  { responded := true, command := "!!stats rank used diamond_pickaxe".data
  , params := noParams
  , result := { success := false, stats_name := [], data := []
              , total := 0, error_code := 1 } }

/-- An unresponded (in-flight) command payload. -/
def pendingPayload : CommandPayload :=
  { responded := false, command := "!!stats rank used diamond_pickaxe".data
  , params := { IsQQ := true, type := some ("Vanilla".data) }
  , result := { success := true, stats_name := [], data := []
              , total := 0, error_code := 0 } }

/-- A responded payload for an unrelated command without the
chatroom-origin marker. -/
def foreignAckPayload : CommandPayload :=
  { responded := true, command := "!!custom query".data, params := noParams
  , result := { success := true, stats_name := [], data := []
              , total := 0, error_code := 0 } }

/-- The 1200-character no-newline text of the C7 counterexample:
1199 letters followed by one trailing space. -/
def trailingSpaceText : Str := List.replicate 1199 'a' ++ [' ']

/-! ## Helper lemmas about the string primitives -/

/-- Flattening the kept-ends line split reproduces the input. -/
theorem splitlines_flatten : ∀ s : Str, (splitlines s).flatten = s := by
  intro s
  have hnr : ('\n' : Char) ≠ '\r' := by decide
  induction s using splitlines.induct <;> (rw [splitlines.eq_def]; simp_all)

/-- The line split of a nonempty string is nonempty. -/
theorem splitlines_ne_nil (s : Str) (h : s ≠ []) : splitlines s ≠ [] := by
  intro hh
  apply h
  have := splitlines_flatten s
  rw [hh] at this
  simpa using this.symm

/-- A nonempty string without line-break characters is a single line. -/
theorem splitlines_single : ∀ s : Str, s ≠ [] → (∀ c ∈ s, c ≠ '\n' ∧ c ≠ '\r') →
    splitlines s = [s]
  | [], h, _ => absurd rfl h
  | c :: r, _, h => by
    have hc := h c (List.mem_cons_self c r)
    match r, hr : r with
    | _, [] =>
      rw [splitlines.eq_def]
      simp [hc.1, hc.2, splitlines]
    | _, d :: r2 =>
      have hrec := splitlines_single (d :: r2) (by simp)
        (fun x hx => h x (List.mem_cons_of_mem c hx))
      rw [splitlines.eq_def]
      simp [hc.1, hc.2, hrec]

/-- Dropping from the left stops at a failing element appended at the
end. -/
theorem dropWhile_append_singleton {p : Char → Bool} {c : Char} (hc : p c = false) :
    ∀ l : Str, List.dropWhile p (l ++ [c]) = List.dropWhile p l ++ [c] := by
  intro l
  induction l with
  | nil => simp [List.dropWhile, hc]
  | cons a t ih =>
    by_cases ha : p a
    · simp [List.dropWhile, ha, ih]
    · simp [List.dropWhile, ha]

/-- Right strip commutes with a non-space head. -/
theorem pyRstrip_cons_nonspace {c : Char} (hc : pyIsSpace c = false) (xs : Str) :
    pyRstrip (c :: xs) = c :: pyRstrip xs := by
  unfold pyRstrip
  rw [List.reverse_cons, dropWhile_append_singleton hc]
  simp

/-- A string ending in a non-space character is unchanged by rstrip. -/
theorem pyRstrip_append_nonspace {c : Char} (hc : pyIsSpace c = false) (xs : Str) :
    pyRstrip (xs ++ [c]) = xs ++ [c] := by
  unfold pyRstrip
  rw [List.reverse_append]
  simp only [List.reverse_cons, List.reverse_nil, List.nil_append, List.singleton_append]
  rw [List.dropWhile_cons_of_neg (by simp [hc])]
  simp

/-- Strip of a string with a non-space head keeps that head. -/
theorem pyStrip_cons_nonspace {c : Char} (hc : pyIsSpace c = false) (xs : Str) :
    pyStrip (c :: xs) = c :: pyRstrip xs := by
  unfold pyStrip pyLstrip
  rw [List.dropWhile_cons_of_neg (by simp [hc])]
  exact pyRstrip_cons_nonspace hc xs

/-- A message whose first character is not `#` (and not whitespace) never
enters the privileged-command gate. -/
theorem hash_prefix_false {c : Char} (hc : pyIsSpace c = false) (hne : c ≠ '#') (xs : Str) :
    ("#".data).isPrefixOf (pyStrip (c :: xs)) = false := by
  rw [pyStrip_cons_nonspace hc]
  have : "#".data = ['#'] := rfl
  rw [this]
  simp [List.isPrefixOf, hne, Ne.symm hne]

/-- A single-character split never returns the empty list. -/
theorem pySplitChar_ne_nil (sep : Char) : ∀ s : Str, pySplitChar sep s ≠ [] := by
  intro s
  induction s with
  | nil => simp [pySplitChar]
  | cons c r ih =>
    rw [pySplitChar.eq_def]
    by_cases h : c = sep
    · simp [h]
    · simp only [if_neg h]
      match hsp : pySplitChar sep r with
      | [] => simp
      | t :: ts => simp

/-- A string without the separator splits into itself alone. -/
theorem pySplitChar_no_sep (sep : Char) : ∀ s : Str, (∀ c ∈ s, c ≠ sep) →
    pySplitChar sep s = [s]
  | [], _ => rfl
  | c :: r, h => by
    have hrec := pySplitChar_no_sep sep r (fun x hx => h x (List.mem_cons_of_mem c hx))
    rw [pySplitChar.eq_def]
    simp [h c (List.mem_cons_self c r), hrec]

/-- Splitting at the first separator occurrence peels the prefix. -/
theorem pySplitChar_append_sep (sep : Char) : ∀ pre : Str, (∀ c ∈ pre, c ≠ sep) →
    ∀ post : Str, pySplitChar sep (pre ++ sep :: post) = pre :: pySplitChar sep post
  | [], _, post => by
    rw [pySplitChar.eq_def]
    simp
  | c :: pre2, h, post => by
    have hrec := pySplitChar_append_sep sep pre2
      (fun x hx => h x (List.mem_cons_of_mem c hx)) post
    rw [List.cons_append, pySplitChar.eq_def]
    simp only [if_neg (h c (List.mem_cons_self c pre2)), hrec]

/-! ## Helper lemmas about the chunking loop -/

/-- Concatenating the emitted chunks reproduces the accumulated message
followed by all remaining lines. -/
theorem send_text_loop_flatten : ∀ (ls : List Str) (msg : Str), ls ≠ [] →
    (send_text_loop ls msg).flatten = msg ++ ls.flatten
  | [], _, h => absurd rfl h
  | [l], msg, _ => by simp [send_text_loop]
  | l1 :: l2 :: rest, msg, _ => by
    have ih := send_text_loop_flatten (l2 :: rest)
    rw [send_text_loop.eq_def]
    simp only []
    split
    · simp [ih _ (by simp), List.append_assoc]
    · simp [ih _ (by simp), List.append_assoc]

/-- A tail of lines whose total size fits in one chunk is emitted as a
single chunk. -/
theorem send_text_loop_single : ∀ (ls : List Str) (msg : Str), ls ≠ [] →
    msg.length + ls.flatten.length ≤ 500 →
    send_text_loop ls msg = [msg ++ ls.flatten]
  | [], _, h, _ => absurd rfl h
  | [l], msg, _, _ => by simp [send_text_loop]
  | l1 :: l2 :: rest, msg, _, hlen => by
    have htot : (msg ++ l1).length + (l2 :: rest).flatten.length ≤ 500 := by
      simp only [List.flatten_cons, List.length_append] at hlen ⊢
      omega
    have hcond : ¬ (500 < (msg ++ l1).length + l2.length) := by
      simp only [List.flatten_cons, List.length_append] at htot ⊢
      omega
    have ih := send_text_loop_single (l2 :: rest) (msg ++ l1) (by simp) htot
    rw [send_text_loop.eq_def]
    simp only [if_neg hcond, ih]
    simp [List.append_assoc]

/-- When every remaining line fits in the limit and the accumulated
message leaves room for the next line, every emitted chunk fits in the
limit. -/
theorem send_text_loop_le : ∀ (ls : List Str) (msg : Str),
    (∀ l ∈ ls, l.length ≤ 500) →
    (msg = [] ∨ ∀ l1 t, ls = l1 :: t → msg.length + l1.length ≤ 500) →
    ∀ c ∈ send_text_loop ls msg, c.length ≤ 500
  | [], _, _, _ => by simp [send_text_loop]
  | [l], msg, hall, hmsg => by
    simp only [send_text_loop, List.mem_singleton]
    intro c hc
    subst hc
    rcases hmsg with h | h
    · subst h
      simpa using hall l (by simp)
    · simpa using h l [] rfl
  | l1 :: l2 :: rest, msg, hall, hmsg => by
    have hm : (msg ++ l1).length ≤ 500 := by
      rcases hmsg with h | h
      · subst h
        simpa using hall l1 (by simp)
      · have := h l1 (l2 :: rest) rfl
        simp only [List.length_append]
        omega
    have hall2 : ∀ l ∈ l2 :: rest, l.length ≤ 500 :=
      fun l hl => hall l (List.mem_cons_of_mem l1 hl)
    rw [send_text_loop.eq_def]
    simp only []
    split
    · intro c hc
      rcases List.mem_cons.mp hc with h | h
      · subst h; exact hm
      · exact send_text_loop_le (l2 :: rest) [] hall2 (Or.inl rfl) c h
    · next hcond =>
      intro c hc
      refine send_text_loop_le (l2 :: rest) (msg ++ l1) hall2 (Or.inr ?_) c hc
      intro l1' t' ht'
      cases ht'
      omega

/-- Right strip drops a trailing whitespace character. -/
theorem pyRstrip_append_space {c : Char} (hc : pyIsSpace c = true) (xs : Str) :
    pyRstrip (xs ++ [c]) = pyRstrip xs := by
  unfold pyRstrip
  rw [List.reverse_append]
  simp only [List.reverse_cons, List.reverse_nil, List.nil_append, List.singleton_append]
  rw [List.dropWhile_cons_of_pos (by simp [hc])]

/-- A string whose last character is not whitespace is unchanged by
rstrip. -/
theorem pyRstrip_eq_self_of_getLast (t : Str) (h : t ≠ [])
    (hl : pyIsSpace (t.getLastD 'a') = false) : pyRstrip t = t := by
  have hc : pyIsSpace (t.getLast h) = false := by
    have heq : t.getLastD 'a' = t.getLast h := by
      rw [List.getLastD_eq_getLast?, List.getLast?_eq_getLast t h]
      rfl
    rwa [heq] at hl
  conv_lhs => rw [← List.dropLast_append_getLast h]
  rw [pyRstrip_append_nonspace hc]
  exact List.dropLast_append_getLast h

/-- A two-level conditional whose leaves are all `some` is never
`none`. -/
theorem ite3_ne_none {α : Type} {p q : Prop} [Decidable p] [Decidable q]
    (a b c : α) :
    (if p then some a else if q then some b else some c) ≠ none := by
  split
  · simp
  · split <;> simp

/-! ## Reduction of `on_message` on a well-formed group event -/

/-- Evaluation of the `on_message` body on a fully populated group
message addressed to the configured group by a sender who passes the
access gate: the result is the privileged-command gate when it fires and
the later classification steps otherwise. -/
theorem on_message_body_groupEvent (env : Env) (cfg : CqHttpConfig) (uid : Int)
    (raw card nick : Str)
    (hcc : env.chatClientPresent = true)
    (hw1 : cfg.qq_whitelist = true → uid ∈ cfg.qq_list)
    (hw2 : cfg.qq_whitelist = false → uid ∉ cfg.qq_list) :
    on_message_body env cfg (groupEvent cfg.react_group_id uid raw card nick) =
      match privilegedGate cfg env.online uid raw with
      | some effs => Except.ok effs
      | none => on_message_rest env cfg uid raw (pySplitChar ' ' raw)
          (some { card := card, nickname := nick }) := by
  unfold on_message_body groupEvent
  cases hq : cfg.qq_whitelist with
  | true => simp [hcc, hw1 hq]
  | false => simp [hcc, hw2 hq]

/-- A body that succeeds passes through the exception boundary
unchanged. -/
theorem on_message_of_body_ok (env : Env) (cfg : CqHttpConfig) (d : EventData)
    (l : List Effect) (h : on_message_body env cfg d = Except.ok l) :
    on_message env cfg d = Except.ok l := by
  unfold on_message
  rw [h]

/-! ## Claim C1 -/

/-- Claim C1 (code bug): the spec says an admin sender is always
permitted through the offline-registration sub-command ACL, so that
`#离线 Survival Steve` from an admin with the link online forwards the
synthesized command `auth addToForcedOffline Steve`.  The code instead
chains the alias branches as `elif`s of
`if int(data['user_id']) in self.config.admin:`, so an admin sender
enters the admin branch, matches neither `/` nor `!`, and falls through
the whole gate: evaluated at exactly that event, the handler performs no
effect at all — no forward, no reply. -/
theorem C1_admin_offline_registration_unreachable :
    on_message envOnline sampleCfg
      (groupEvent 1000 123 ("#离线 Survival Steve".data) [] ("Nick".data)) =
    Except.ok [] := by decide

/-! ## Claim C2 -/

/-- Claim C2 counterexample: an admin sending `# target 10 2` (a
three-token privileged line, link online) neither returns from the
privileged-command gate (the gate falls through) nor issues a remote raw
command: the whole handler performs no effect. -/
theorem C2_counterexample_admin_unknown_token_falls_through :
    privilegedGate sampleCfg true 123 ("# target 10 2".data) = none ∧
    on_message envOnline sampleCfg
      (groupEvent 1000 123 ("# target 10 2".data) [] ("Nick".data)) = Except.ok [] := by
  constructor <;> decide

/-- Claim C2 (amended): for every ≥3-token privileged line, a non-admin
sender always returns from the privileged-command gate; an admin sender
returns from the gate exactly when the classifier token is `/` or `!`
(and otherwise falls through to the later classification steps); and
when an admin sends `#/ target 10 2` with the remote link online, a
remote raw command `10 2` is issued to client `target` with metadata
marking origin chat-room (`IsQQ`) and kind raw (`Type = Vanilla`). -/
theorem C2_amended_gate_return_behavior :
    (∀ (cfg : CqHttpConfig) (online : Bool) (uid : Int) (raw c0 c1 c2 : Str)
        (t : List Str),
      ("#".data).isPrefixOf (pyStrip raw) = true →
      pySplitWsMax 2 (pyStrip (raw.drop 1)) = c0 :: c1 :: c2 :: t →
      (uid ∉ cfg.admin → privilegedGate cfg online uid raw ≠ none) ∧
      (uid ∈ cfg.admin →
        (privilegedGate cfg online uid raw ≠ none ↔ (c0 = "/".data ∨ c0 = "!".data)))) ∧
    (∀ (env : Env) (cfg : CqHttpConfig) (uid : Int) (card nick : Str),
      env.chatClientPresent = true → env.online = true → uid ∈ cfg.admin →
      (cfg.qq_whitelist = true → uid ∈ cfg.qq_list) →
      (cfg.qq_whitelist = false → uid ∉ cfg.qq_list) →
      on_message env cfg (groupEvent cfg.react_group_id uid ("#/ target 10 2".data) card nick) =
        Except.ok [Effect.sendCommand ("target".data) ("10 2".data)
          { IsQQ := true, type := some ("Vanilla".data) }]) := by
  constructor
  · intro cfg online uid raw c0 c1 c2 t hpre hsplit
    constructor
    · intro hadm
      rw [privilegedGate.eq_def, hpre, hsplit]
      simp only [if_neg hadm, if_true]
      split
      · exact ite3_ne_none _ _ _
      · split
        · exact ite3_ne_none _ _ _
        · simp
    · intro hadm
      rw [privilegedGate.eq_def, hpre, hsplit]
      simp only [if_pos hadm, if_true]
      by_cases h0 : c0 = "/".data
      · simp [h0]
      · by_cases h1 : c0 = "!".data
        · simp [h0, h1]
        · simp [h0, h1]
  · intro env cfg uid card nick hcc honline hadm hw1 hw2
    have hbody := on_message_body_groupEvent env cfg uid ("#/ target 10 2".data) card nick
      hcc hw1 hw2
    have hp : ("#".data).isPrefixOf (pyStrip ("#/ target 10 2".data)) = true := by decide
    have hs : pySplitWsMax 2 (pyStrip (("#/ target 10 2".data).drop 1)) =
        ["/".data, "target".data, "10 2".data] := by decide
    have hgate : privilegedGate cfg env.online uid ("#/ target 10 2".data) =
        some [Effect.sendCommand ("target".data) ("10 2".data)
          { IsQQ := true, type := some ("Vanilla".data) }] := by
      rw [privilegedGate.eq_def, hp, hs]
      simp [hadm, honline]
    rw [hgate] at hbody
    unfold on_message
    rw [hbody]

/-- Claim C2 witness: concrete instances of the amended statement — a
non-admin sender returns from the gate, and the admin raw-command
scenario on `#/ target 10 2`. -/
theorem C2_witness :
    privilegedGate cfgNoAdmin true 55 ("#离线 Survival Steve".data) ≠ none ∧
    on_message envOnline sampleCfg
        (groupEvent sampleCfg.react_group_id 123 ("#/ target 10 2".data) [] []) =
      Except.ok [Effect.sendCommand ("target".data) ("10 2".data)
        { IsQQ := true, type := some ("Vanilla".data) }] :=
  ⟨(C2_amended_gate_return_behavior.1 cfgNoAdmin true 55 ("#离线 Survival Steve".data)
      ("离线".data) ("Survival".data) ("Steve".data) [] (by decide) (by decide)).1
      (by decide),
   C2_amended_gate_return_behavior.2 envOnline sampleCfg 123 [] [] rfl rfl (by decide)
     (fun h => absurd h (by decide)) (fun _ => by decide)⟩

/-! ## Claim C3 -/

/-- Claim C3 counterexample: a responded stats result that does not
carry the chatroom-origin marker (`IsQQ` absent) is nevertheless
rendered into the chat room — the `!!stats ` prefix branch of
`on_command` never consults `params`. -/
theorem C3_counterexample_stats_rendered_without_origin_marker :
    statsResultNoMarker.responded = true ∧
    statsResultNoMarker.params.IsQQ = false ∧
    on_command true statsResultNoMarker =
      Except.ok [Effect.sendText
        ("====== used diamond_pickaxe ======\n1. Steve 10\n总数：10".data)] := by
  refine ⟨rfl, rfl, ?_⟩
  decide

/-- Claim C3 (amended): a responded command result that does not carry
the chatroom-origin marker produces no chat-room message, provided its
command neither matches the `!!stats ` prefix nor equals `!!online`;
stats and online results are rendered regardless of the origin
marker. -/
theorem C3_amended_silent_ignore (b : Bool) (p : CommandPayload)
    (hresp : p.responded = true)
    (hqq : p.params.IsQQ = false)
    (hstats : ("!!stats ".data).isPrefixOf p.command = false)
    (honline : p.command ≠ "!!online".data) :
    on_command b p = Except.ok [] := by
  unfold on_command
  simp [hresp, hqq, hstats, honline]

/-- Claim C3 witness: a responded foreign acknowledgment without the
origin marker is silently ignored. -/
theorem C3_witness : on_command true foreignAckPayload = Except.ok [] :=
  C3_amended_silent_ignore true foreignAckPayload rfl rfl (by decide) (by decide)

/-! ## Claim C4 -/

/-- Claim C4 counterexample: an unhandled exception does escape the
command-result handler.  Before `main` constructs the `cq_bot` singleton
(the chat client is created and started first), a responded `!!online`
result reaches `on_command`, whose body has no `try` and no `None`
check: the attribute access `cq_bot.send_text` raises, and the exception
propagates out of the handler. -/
theorem C4_counterexample_on_command_propagates :
    on_command false onlineResultPayload = Except.error PyErr.attributeError := by
  decide

/-- Claim C4 (amended): the chat-room message handler and the remote
chat handler each run under a per-event `try`/`except` boundary, so no
exception ever propagates out of them; the command-result handler has no
such boundary. -/
theorem C4_amended_message_and_chat_boundaries :
    (∀ (env : Env) (cfg : CqHttpConfig) (d : EventData),
      (on_message env cfg d).isOk = true) ∧
    (∀ (env : Env) (cfg : CqHttpConfig) (sender : Str) (p : ChatPayload),
      (on_chat env cfg sender p).isOk = true) := by
  constructor
  · intro env cfg d
    unfold on_message
    cases on_message_body env cfg d <;> rfl
  · intro env cfg sender p
    unfold on_chat
    cases hb : env.cqBotPresent
    · rfl
    · simp only [Bool.not_true, Bool.false_eq_true, if_false]
      cases on_chat_body env cfg sender p <;> rfl

/-! ## Claim C5 -/

/-- Claim C5 (code bug): the spec says every forwarding site consults
the cached connectivity flag and replies `ChatBridge 客户端离线` instead
of forwarding when the link is offline; in particular the stats path.
The stats path however tests `if chatClient.is_online:` without calling
the method, so the bound-method object is always truthy: evaluated with
the link offline, the handler still forwards the stats command and never
sends the offline notice (its `else` branch is dead code). -/
theorem C5_stats_forwarded_despite_offline :
    envOffline.online = false ∧
    on_message envOffline sampleCfg
      (groupEvent 1000 123 ("!!stats used diamond_pickaxe".data) [] ("Nick".data)) =
    Except.ok [Effect.sendCommand ("MyServer".data)
      ("!!stats rank used diamond_pickaxe".data) noParams] := by
  refine ⟨rfl, ?_⟩
  decide

/-! ## Claim C6 -/

/-- Claim C6 counterexample: the chunking routine right-strips the text
first, so concatenating the chunks does not reproduce the original text
— on the single-space text it emits no chunk at all, although that text
is within the 500-character limit. -/
theorem C6_counterexample_rstrip_breaks_roundtrip :
    (" ".data : Str).length ≤ 500 ∧
    send_text (" ".data) = [] ∧
    (send_text (" ".data)).flatten ≠ " ".data := by
  refine ⟨by decide, by decide, by decide⟩

/-- Claim C6 (amended): concatenating all chunks emitted by
`send_text` reproduces the right-stripped input exactly, and a text
whose right-stripped form is nonempty and within the 500-character limit
is emitted as that single right-stripped chunk. -/
theorem C6_amended_roundtrip_after_rstrip (text : Str) :
    (send_text text).flatten = pyRstrip text ∧
    (pyRstrip text ≠ [] → (pyRstrip text).length ≤ 500 →
      send_text text = [pyRstrip text]) := by
  constructor
  · by_cases h : pyRstrip text = []
    · unfold send_text
      rw [h]
      rfl
    · unfold send_text
      rw [send_text_loop_flatten _ _ (splitlines_ne_nil _ h)]
      simp [splitlines_flatten]
  · intro h hlen
    unfold send_text
    rw [send_text_loop_single _ _ (splitlines_ne_nil _ h)
      (by simpa [splitlines_flatten] using hlen)]
    simp [splitlines_flatten]

/-- Claim C6 witness: the amended round-trip and single-chunk laws at a
concrete short text. -/
theorem C6_witness :
    (send_text ("abc".data)).flatten = pyRstrip ("abc".data) ∧
    send_text ("abc".data) = [pyRstrip ("abc".data)] :=
  ⟨(C6_amended_roundtrip_after_rstrip ("abc".data)).1,
   (C6_amended_roundtrip_after_rstrip ("abc".data)).2 (by decide) (by decide)⟩

/-! ## Claim C7 -/

/-- Claim C7 counterexample: a 1200-character text with no newline but a
trailing space is right-stripped before chunking, so the single emitted
chunk holds 1199 characters, not all 1200 as the claim requires. -/
theorem C7_counterexample_trailing_space :
    trailingSpaceText.length = 1200 ∧
    (∀ c ∈ trailingSpaceText, c ≠ '\n') ∧
    send_text trailingSpaceText = [List.replicate 1199 'a'] ∧
    (List.replicate 1199 'a').length = 1199 := by
  have h1 : pyRstrip trailingSpaceText = List.replicate 1199 'a' := by
    unfold trailingSpaceText
    rw [pyRstrip_append_space (by decide)]
    rw [show (1199 : Nat) = 1198 + 1 from rfl, List.replicate_succ']
    rw [pyRstrip_append_nonspace (by decide)]
  have h2 : splitlines (List.replicate 1199 'a') = [List.replicate 1199 'a'] :=
    splitlines_single _ (by simp)
      (fun c hc => by rw [List.eq_of_mem_replicate hc]; exact ⟨by decide, by decide⟩)
  refine ⟨by simp [trailingSpaceText], ?_, ?_, by simp⟩
  · intro c hc
    rcases List.mem_append.mp hc with h | h
    · rw [List.eq_of_mem_replicate h]; decide
    · rw [List.mem_singleton.mp h]; decide
  · unfold send_text
    rw [h1, h2]
    simp [send_text_loop]

/-- Claim C7 (amended): when no single line of the (right-stripped) text
exceeds 500 characters, no emitted chunk exceeds 500 characters; and a
1200-character text containing no line break whose last character is not
whitespace is emitted as exactly that one oversized chunk, never split
mid-line. -/
theorem C7_amended_chunk_bound_and_oversized_line :
    (∀ (text c : Str), (∀ l ∈ splitlines (pyRstrip text), l.length ≤ 500) →
      c ∈ send_text text → c.length ≤ 500) ∧
    (∀ text : Str, text.length = 1200 → (∀ ch ∈ text, ch ≠ '\n' ∧ ch ≠ '\r') →
      pyIsSpace (text.getLastD 'a') = false → send_text text = [text]) := by
  constructor
  · intro text c hall hc
    exact send_text_loop_le _ _ hall (Or.inl rfl) c hc
  · intro text hlen hnb hlast
    have hne : text ≠ [] := by
      intro h
      rw [h] at hlen
      simp at hlen
    unfold send_text
    rw [pyRstrip_eq_self_of_getLast text hne hlast, splitlines_single text hne hnb]
    simp [send_text_loop]

/-- Claim C7 witness: the chunk bound at a concrete two-line text, and
the oversized single-line scenario at a concrete 1200-character
newline-free text. -/
theorem C7_witness :
    (∀ c ∈ send_text ("ab\ncd".data), c.length ≤ 500) ∧
    send_text (List.replicate 1200 'a') = [List.replicate 1200 'a'] := by
  constructor
  · intro c hc
    exact C7_amended_chunk_bound_and_oversized_line.1 ("ab\ncd".data) c (by decide) hc
  · refine C7_amended_chunk_bound_and_oversized_line.2 (List.replicate 1200 'a')
      (by simp) ?_ ?_
    · intro ch hch
      rw [List.eq_of_mem_replicate hch]
      exact ⟨by decide, by decide⟩
    · have h : (List.replicate 1200 'a').getLastD 'a' = 'a' := by
        rw [show (1200 : Nat) = 1199 + 1 from rfl, List.replicate_succ']
        simp
      rw [h]
      decide

/-! ## Claim C8 -/

/-- Claim C8 counterexample: the arity check subtracts one whenever
`-bot` occurs as a substring of the reconstructed command — not only as
a flag token.  `!!stats used x-bot` has exactly three whitespace tokens
and no `-bot` token, so the claim requires it to be forwarded, yet the
handler replies with the stats usage help text and forwards nothing. -/
theorem C8_counterexample_bot_substring :
    (pySplitChar ' ' ("!!stats used x-bot".data)).length = 3 ∧
    ("-bot".data : Str) ∉ pySplitChar ' ' ("!!stats used x-bot".data) ∧
    on_message envOnline sampleCfg
      (groupEvent 1000 123 ("!!stats used x-bot".data) [] ("Nick".data)) =
    Except.ok [Effect.sendText StatsHelpMessage] := by
  refine ⟨by decide, by decide, by decide⟩

/-- Claim C8 (amended): for a chat-room message whose first whitespace
token is `!!stats` from a sender who passes the access gate, the command
is forwarded if and only if the token count minus one-if-`-bot`-occurs
-as-a-substring-of-the-reconstructed-command equals 3; on any mismatch
the sender receives the stats usage help text and nothing is forwarded.
(The forwarding, due to the uncalled `is_online` bound method, does not
depend on the link state.) -/
theorem C8_amended_stats_arity_substring_rule (env : Env) (cfg : CqHttpConfig)
    (uid : Int) (card nick rest : Str)
    (hcc : env.chatClientPresent = true)
    (hw1 : cfg.qq_whitelist = true → uid ∈ cfg.qq_list)
    (hw2 : cfg.qq_whitelist = false → uid ∉ cfg.qq_list)
    (hrest : rest = [] ∨ ∃ r2, rest = ' ' :: r2) :
    on_message env cfg (groupEvent cfg.react_group_id uid ("!!stats".data ++ rest) card nick) =
      (if (pySplitChar ' ' ("!!stats".data ++ rest)).length -
          (if hasInfix ("!!stats rank ".data ++
              joinSep ' ' (pySplitChar ' ' ("!!stats".data ++ rest)).tail) ("-bot".data)
           then 1 else 0) = 3 then
        Except.ok [Effect.sendCommand cfg.client_to_query_stats
          ("!!stats rank ".data ++
            joinSep ' ' (pySplitChar ' ' ("!!stats".data ++ rest)).tail) noParams]
      else Except.ok [Effect.sendText StatsHelpMessage]) := by
  have hform : "!!stats".data ++ rest = '!' :: ("!stats".data ++ rest) := rfl
  have hgate : privilegedGate cfg env.online uid ("!!stats".data ++ rest) = none := by
    rw [privilegedGate.eq_def, hform, hash_prefix_false (by decide) (by decide)]
    simp
  have hbody := on_message_body_groupEvent env cfg uid ("!!stats".data ++ rest) card nick
    hcc hw1 hw2
  rw [hgate] at hbody
  rcases hrest with hre | ⟨r2, hre⟩
  · subst hre
    unfold on_message
    rw [hbody]
    rfl
  · subst hre
    have hpre : ∀ c ∈ "!!stats".data, c ≠ ' ' := by decide
    have hargs : pySplitChar ' ' ("!!stats".data ++ ' ' :: r2) =
        "!!stats".data :: pySplitChar ' ' r2 := pySplitChar_append_sep ' ' _ hpre r2
    have hK : pySplitChar ' ' r2 ≠ [] := pySplitChar_ne_nil ' ' r2
    have hKlen : 0 < (pySplitChar ' ' r2).length := List.length_pos.mpr hK
    unfold on_message
    rw [hbody, hargs]
    simp only [on_message_rest, Bool.and_eq_true, Bool.or_eq_true, Bool.not_eq_true',
      decide_eq_true_eq, decide_eq_false_iff_not, List.length_cons, List.headD_cons,
      List.tail_cons, is_online_method_truthy]
    rw [if_neg (by rintro ⟨h, -⟩; omega)]
    rw [if_neg (by rintro ⟨h, -⟩; omega)]
    rw [if_neg (by rintro ⟨h, -⟩; omega)]
    rw [if_pos ⟨by omega, trivial⟩]
    by_cases harity : (pySplitChar ' ' r2).length + 1 -
        (if hasInfix ("!!stats rank ".data ++ joinSep ' ' (pySplitChar ' ' r2)) ("-bot".data)
         then 1 else 0) = 3
    · rw [if_neg (show ¬((pySplitChar ' ' r2).length + 1 = 0 ∨
          ¬((pySplitChar ' ' r2).length + 1 -
            (if hasInfix ("!!stats rank ".data ++ joinSep ' ' (pySplitChar ' ' r2)) ("-bot".data)
             then 1 else 0) = 3)) from
        fun hor => hor.elim (fun h => by omega) (fun h => h harity))]
      rw [if_pos harity]
      simp
    · rw [if_pos (Or.inr harity)]
      rw [if_neg harity]

/-- Claim C8 witness: a well-formed three-token stats command is
forwarded as the reconstructed remote command. -/
theorem C8_witness :
    on_message envOnline sampleCfg
      (groupEvent sampleCfg.react_group_id 123
        ("!!stats".data ++ " used diamond_pickaxe".data) [] []) =
    Except.ok [Effect.sendCommand sampleCfg.client_to_query_stats
      ("!!stats rank used diamond_pickaxe".data) noParams] := by
  have h := C8_amended_stats_arity_substring_rule envOnline sampleCfg 123 [] []
    (" used diamond_pickaxe".data) rfl (fun hh => absurd hh (by decide))
    (fun _ => by decide) (Or.inr ⟨"used diamond_pickaxe".data, rfl⟩)
  rw [h]
  decide

/-! ## Claim C9 -/

/-- Claim C9: a responded stats command result is rendered for the chat
room as a header carrying the stats category name, each data row, and a
total-count footer when it succeeded; as exactly `统计信息未找到` when it
failed with error code 1; and as exactly `StatsHelper 插件未加载` when it
failed with error code 2. -/
theorem C9_stats_result_rendering (p : CommandPayload)
    (hresp : p.responded = true)
    (hpre : ("!!stats ".data).isPrefixOf p.command = true) :
    (p.result.success = true →
      on_command true p = Except.ok [Effect.sendText (joinSep '\n'
        (("====== ".data ++ p.result.stats_name ++ " ======".data) ::
          (p.result.data ++ ["总数：".data ++ intToStr p.result.total])))]) ∧
    (p.result.success = false → p.result.error_code = 1 →
      on_command true p = Except.ok [Effect.sendText ("统计信息未找到".data)]) ∧
    (p.result.success = false → p.result.error_code = 2 →
      on_command true p = Except.ok [Effect.sendText ("StatsHelper 插件未加载".data)]) := by
  refine ⟨?_, ?_, ?_⟩
  · intro hs
    unfold on_command
    simp [hresp, hpre, StatsQueryResult.deserialize, hs, cqBotSendText]
  · intro hs he
    unfold on_command
    simp [hresp, hpre, StatsQueryResult.deserialize, hs, he, cqBotSendText]
  · intro hs he
    unfold on_command
    simp [hresp, hpre, StatsQueryResult.deserialize, hs, he, cqBotSendText]

/-- Claim C9 witness: the success rendering and the error-code-1
rendering at concrete responded stats results. -/
theorem C9_witness :
    on_command true statsResultNoMarker = Except.ok [Effect.sendText
      ("====== used diamond_pickaxe ======\n1. Steve 10\n总数：10".data)] ∧
    on_command true statsErr1Payload = Except.ok [Effect.sendText ("统计信息未找到".data)] := by
  constructor
  · have h := (C9_stats_result_rendering statsResultNoMarker rfl (by decide)).1 rfl
    rw [h]
    decide
  · exact (C9_stats_result_rendering statsErr1Payload rfl (by decide)).2.1 rfl rfl

/-! ## Claim C10 -/

/-- Claim C10: a command-result payload whose responded flag is false is
dropped immediately by the command-result handler — no chat-room message
for any command string, params or result value. -/
theorem C10_unresponded_silent (b : Bool) (p : CommandPayload)
    (h : p.responded = false) : on_command b p = Except.ok [] := by
  unfold on_command
  simp [h]

/-- Claim C10 witness: a concrete in-flight payload produces no
output. -/
theorem C10_witness : on_command true pendingPayload = Except.ok [] :=
  C10_unresponded_silent true pendingPayload rfl
